import Mathlib

/-!
# Verification of the cortex Fact Consistency & Tiering Engine

This file gives a shallow embedding, in Lean 4, of the core components of
the cortex repository (a persistence layer for subject-predicate-object
facts extracted from conversations):

* the Decay Engine (`src/decay/index.ts`, `DecayManager`),
* the Conflict Resolver and extraction validation
  (`src/extraction/ConflictResolver.ts`),
* the Consolidation Engine (`ConsolidationWorker`),
* the Tiered Store (`TieredAdapter`) over abstract storage adapters,
  together with the concrete `InMemoryAdapter`,
* the Query Cache (`src/retrieval/SemanticCache.ts`).

JavaScript numbers are modelled as rationals (`Rat`); timestamps are
rationals measured in milliseconds since the epoch; `Date.now()` becomes an
explicit `now` parameter.  Fallible storage calls are modelled with
`Except Unit`.  All definitions are computable so that concrete scenarios
evaluate by `decide` / `rfl` / `simp`.
-/

namespace Cortex

/-- Memory consolidation stage of a fact (`MemoryFact.memoryStage`). -/
inductive MemoryStage
  | shortTerm
  | working
  | longTerm
deriving DecidableEq, Repr

/-- Sentiment tag attached to a fact or operation. -/
inductive Sentiment
  | positive
  | negative
  | neutral
deriving DecidableEq, Repr

/-- The central entity of cortex: a stored fact (`MemoryFact` in
`src/types.ts`).  Timestamps are rationals in milliseconds. -/
structure Fact where
  id : String
  subject : String
  predicate : String
  object : String
  confidence : Rat
  importance : Rat
  source : String
  createdAt : Rat
  updatedAt : Rat
  invalidatedAt : Option Rat
  accessCount : Option Nat := none
  lastAccessedAt : Option Rat := none
  sentiment : Option Sentiment := none
  memoryStage : Option MemoryStage := none
  reinforcementCount : Option Nat := none
  lastReinforcedAt : Option Rat := none
deriving DecidableEq, Repr

/-- Operation type of a `MemoryOperation`. -/
inductive OpType
  | INSERT
  | UPDATE
  | DELETE
deriving DecidableEq, Repr

/-- A proposed mutation of the fact graph (`MemoryOperation` in
`src/types.ts`). -/
structure Operation where
  op : OpType
  subject : String
  predicate : String
  object : String
  reason : Option String := none
  confidence : Option Rat := none
  importance : Option Rat := none
  sentiment : Option Sentiment := none
deriving DecidableEq, Repr

/-- Result of the fact-extraction step (`ExtractionResult`). -/
structure ExtractionResult where
  operations : List Operation
  reasoning : Option String := none
deriving DecidableEq, Repr

/-! ## JavaScript string primitives

The source uses `String.prototype.toUpperCase`, `toLowerCase`, `trim` and
`split(/\s+/)`.  We model them over the character list of a Lean string
(ASCII-faithful; kernel-reducible, unlike the position-based core
functions). -/

/-- `s.toUpperCase()` (ASCII). -/
def jsToUpperCase (s : String) : String := ⟨s.data.map Char.toUpper⟩

/-- `s.toLowerCase()` (ASCII). -/
def jsToLowerCase (s : String) : String := ⟨s.data.map Char.toLower⟩

/-- `s.trim()`: strip leading and trailing whitespace. -/
def jsTrim (s : String) : String :=
  ⟨((s.data.dropWhile Char.isWhitespace).reverse.dropWhile
      Char.isWhitespace).reverse⟩

/-! ## Decay Engine (`src/decay/index.ts`) -/

/-- Fully-defaulted decay configuration (`Required<DecayConfig>`). -/
structure DecayConfig where
  enabled : Bool
  defaultTtlDays : Option Rat
  lowWeightTtlDays : Rat
  permanentPredicates : List String
  ephemeralPredicates : List String
  ephemeralTtlHours : Rat
  reinforcementThreshold : Nat
deriving DecidableEq, Repr

/-- `DEFAULT_PERMANENT_PREDICATES` from `src/decay/index.ts`. -/
def DEFAULT_PERMANENT_PREDICATES : List String :=
  ["NAME", "FULL_NAME", "ALLERGY", "MEDICAL_CONDITION", "BIRTHDAY",
   "BIRTH_DATE", "EMAIL", "PHONE", "ADDRESS", "LANGUAGE", "TIMEZONE"]

/-- `DEFAULT_EPHEMERAL_PREDICATES` from `src/decay/index.ts`. -/
def DEFAULT_EPHEMERAL_PREDICATES : List String :=
  ["WEARING", "CURRENT_MOOD", "CURRENT_ACTIVITY", "CURRENT_LOCATION",
   "CURRENTLY", "RIGHT_NOW", "TODAY", "FEELING"]

/-- The configuration produced by `new DecayManager({})` (all defaults). -/
def defaultDecayConfig : DecayConfig where
  enabled := true
  defaultTtlDays := some 90
  lowWeightTtlDays := 7
  permanentPredicates := DEFAULT_PERMANENT_PREDICATES
  ephemeralPredicates := DEFAULT_EPHEMERAL_PREDICATES
  ephemeralTtlHours := 24
  reinforcementThreshold := 3

namespace DecayManager

/-- `DecayManager.calculateDecayWeight`.  `now` is the value of
`Date.now()` at call time. -/
def calculateDecayWeight (cfg : DecayConfig) (now : Rat) (fact : Fact) : Rat :=
  if !cfg.enabled then 1
  else
    let predicateUpper := jsToUpperCase fact.predicate
    if cfg.permanentPredicates.contains predicateUpper then 1
    else
      let reinforcements := fact.reinforcementCount.getD 0
      if cfg.reinforcementThreshold ≤ reinforcements then 1
      else
        let createdAt := fact.createdAt
        let lastReinforced := fact.lastReinforcedAt.getD createdAt
        let ageMs := now - lastReinforced
        if cfg.ephemeralPredicates.contains predicateUpper then
          let ttlMs := cfg.ephemeralTtlHours * 60 * 60 * 1000
          max 0 (1 - ageMs / ttlMs)
        else
          let confidence := fact.confidence
          let ttlDays? :=
            if confidence < 1/2 then some cfg.lowWeightTtlDays
            else cfg.defaultTtlDays
          match ttlDays? with
          | none => 1
          | some ttlDays =>
            let ttlMs := ttlDays * 24 * 60 * 60 * 1000
            let weight := max 0 (1 - ageMs / ttlMs)
            let reinforcementBoost := min (1/2 : Rat) ((reinforcements : Rat) * (1/10))
            min 1 (weight + reinforcementBoost)

/-- `DecayManager.calculateExpiryDate`. -/
def calculateExpiryDate (cfg : DecayConfig) (fact : Fact) : Option Rat :=
  if !cfg.enabled then none
  else
    let predicateUpper := jsToUpperCase fact.predicate
    if cfg.permanentPredicates.contains predicateUpper then none
    else
      let reinforcements := fact.reinforcementCount.getD 0
      if cfg.reinforcementThreshold ≤ reinforcements then none
      else
        let lastReinforced := fact.lastReinforcedAt.getD fact.createdAt
        if cfg.ephemeralPredicates.contains predicateUpper then
          some (lastReinforced + cfg.ephemeralTtlHours * 60 * 60 * 1000)
        else
          let confidence := fact.confidence
          let ttlDays? :=
            if confidence < 1/2 then some cfg.lowWeightTtlDays
            else cfg.defaultTtlDays
          match ttlDays? with
          | none => none
          | some ttlDays => some (lastReinforced + ttlDays * 24 * 60 * 60 * 1000)

/-- `DecayManager.shouldPrune`.  `now` is the value of `Date.now()`. -/
def shouldPrune (cfg : DecayConfig) (now : Rat) (fact : Fact) : Bool :=
  if !cfg.enabled then false
  else if calculateDecayWeight cfg now fact ≤ 0 then true
  else
    match calculateExpiryDate cfg fact with
    | some expiresAt => decide (expiresAt < now)
    | none => false

end DecayManager

/-! ## Conflict Resolver (`src/extraction/ConflictResolver.ts`) -/

/-- Conflict-resolution strategy (`ConflictStrategy`). -/
inductive ConflictStrategy
  | latest
  | keep_both
  | merge
deriving DecidableEq, Repr

/-- Resolution kind recorded per conflict. -/
inductive Resolution
  | replace
  | keep_both
  | merge
  | ignore
deriving DecidableEq, Repr

/-- A recorded conflict (`ConflictResolutionResult.conflicts` element). -/
structure Conflict where
  existingFact : Fact
  newOperation : Operation
  resolution : Resolution
deriving DecidableEq, Repr

/-- Result of `ConflictResolver.resolve`. -/
structure ConflictResolutionResult where
  resolvedOperations : List Operation
  conflicts : List Conflict
deriving DecidableEq, Repr

namespace ConflictResolver

/-- The implicit DELETE emitted by the `latest` strategy for a superseded
fact (`reason = "Replaced by new value: <new object>"`). -/
def replaceDelete (existingFact : Fact) (op : Operation) : Operation where
  op := OpType.DELETE
  subject := existingFact.subject
  predicate := existingFact.predicate
  object := existingFact.object
  reason := some ("Replaced by new value: " ++ op.object)

/-- The implicit DELETE emitted by the `merge` strategy
(`reason = "Merged with new value: <new object>"`). -/
def mergeDelete (existingFact : Fact) (op : Operation) : Operation where
  op := OpType.DELETE
  subject := existingFact.subject
  predicate := existingFact.predicate
  object := existingFact.object
  reason := some ("Merged with new value: " ++ op.object)

/-- One iteration of the `for (const op of operations)` loop body of
`ConflictResolver.resolve`, acting on the accumulated result. -/
def resolveStep (strategy : ConflictStrategy) (existingFacts : List Fact)
    (acc : ConflictResolutionResult) (op : Operation) :
    ConflictResolutionResult :=
  if op.op = OpType.DELETE then
    { acc with resolvedOperations := acc.resolvedOperations ++ [op] }
  else
    match existingFacts.find? (fun f =>
        f.subject == op.subject && f.predicate == op.predicate) with
    | none =>
      { acc with resolvedOperations := acc.resolvedOperations ++ [op] }
    | some existingFact =>
      if existingFact.object = op.object then
        acc
      else
        match strategy with
        | ConflictStrategy.latest =>
          { resolvedOperations :=
              acc.resolvedOperations ++ [replaceDelete existingFact op, op],
            conflicts :=
              acc.conflicts ++ [⟨existingFact, op, Resolution.replace⟩] }
        | ConflictStrategy.keep_both =>
          { resolvedOperations := acc.resolvedOperations ++ [op],
            conflicts :=
              acc.conflicts ++ [⟨existingFact, op, Resolution.keep_both⟩] }
        | ConflictStrategy.merge =>
          { resolvedOperations :=
              acc.resolvedOperations ++ [mergeDelete existingFact op, op],
            conflicts :=
              acc.conflicts ++ [⟨existingFact, op, Resolution.merge⟩] }

/-- `ConflictResolver.resolve(userId, operations, adapter)`.
`existingFacts` stands for the result of the resolver's
`adapter.getFacts(userId, { validOnly: true })` call: the principal's
currently valid facts. -/
def resolve (strategy : ConflictStrategy) (existingFacts : List Fact)
    (operations : List Operation) : ConflictResolutionResult :=
  operations.foldl (resolveStep strategy existingFacts) ⟨[], []⟩

/-- `ConflictResolver.isMultiValuePredicate`. -/
def isMultiValuePredicate (predicate : String) : Bool :=
  ["USES_TECH", "SPEAKS_LANGUAGE", "HAS_HOBBY", "KNOWS_PERSON",
   "WORKING_ON", "INTERESTED_IN", "SKILL"].contains (jsToUpperCase predicate)

end ConflictResolver

/-! ## Consolidation Engine (`ConsolidationWorker`) -/

/-- Fully-defaulted consolidation configuration
(`Required<ConsolidationConfig>`, sans `debug`). -/
structure ConsolidationConfig where
  shortTermHours : Rat
  workingHours : Rat
  workingAccessThreshold : Rat
  longTermAccessThreshold : Rat
deriving DecidableEq, Repr

/-- The configuration produced by `new ConsolidationWorker(adapter, {})`. -/
def defaultConsolidationConfig : ConsolidationConfig where
  shortTermHours := 1
  workingHours := 24
  workingAccessThreshold := 2
  longTermAccessThreshold := 5

namespace ConsolidationWorker

/-- `ConsolidationWorker.determineStage`.  `now` is the value of
`Date.now()` at call time. -/
def determineStage (cfg : ConsolidationConfig) (now : Rat) (fact : Fact) :
    MemoryStage :=
  let ageMs := now - fact.createdAt
  let ageHours := ageMs / (1000 * 60 * 60)
  let accessCount := fact.accessCount.getD 0
  if cfg.workingHours ≤ ageHours ∧
      cfg.longTermAccessThreshold ≤ (accessCount : Rat) then
    MemoryStage.longTerm
  else if cfg.shortTermHours ≤ ageHours ∨
      cfg.workingAccessThreshold ≤ (accessCount : Rat) then
    MemoryStage.working
  else
    MemoryStage.shortTerm

end ConsolidationWorker

/-! ## Query Cache (`src/retrieval/SemanticCache.ts`)

The cached `HydratedContext` payload is irrelevant to the cache logic; we
model it by an opaque `String`. -/

/-- One `CacheEntry` of the semantic cache. -/
structure CacheEntry where
  query : String
  queryLower : String
  context : String
  timestamp : Rat
  hits : Nat
deriving DecidableEq, Repr

/-- Fully-defaulted cache configuration (`Required<SemanticCacheConfig>`). -/
structure CacheConfig where
  maxSize : Nat
  ttlMs : Rat
  similarityThreshold : Rat
deriving DecidableEq, Repr

namespace SemanticCache

/-- The JS tokenization `x.split(/\s+/).filter(Boolean)`: the list of
maximal runs of non-whitespace characters. -/
def splitTokens (s : String) : List String :=
  ((s.data.splitOnP Char.isWhitespace).map (fun cs => String.mk cs)).filter
    (fun t => t ≠ "")

/-- `SemanticCache.calculateSimilarity`: Jaccard index over word-token
sets (JS `Set` semantics: duplicates collapse). -/
def calculateSimilarity (a b : String) : Rat :=
  if a = b then 1
  else
    let tokensA := (splitTokens a).dedup
    let tokensB := (splitTokens b).dedup
    if tokensA.length = 0 ∨ tokensB.length = 0 then 0
    else
      let intersection := (tokensA.filter (fun t => tokensB.contains t)).length
      let union := tokensA.length + tokensB.length - intersection
      (intersection : Rat) / (union : Rat)

/-- The best-match scan of `SemanticCache.get`: skip expired entries,
keep the first entry whose similarity is at or above the threshold and
strictly above the running best score. -/
def findBestMatch (cfg : CacheConfig) (now : Rat) (queryLower : String)
    (entries : List CacheEntry) : Option CacheEntry × Rat :=
  entries.foldl
    (fun acc entry =>
      if cfg.ttlMs < now - entry.timestamp then acc
      else
        let score := calculateSimilarity queryLower entry.queryLower
        if cfg.similarityThreshold ≤ score ∧ acc.2 < score then
          (some entry, score)
        else acc)
    (none, 0)

/-- `SemanticCache.get` for one principal, returning the matched entry
(`null` becomes `none`; hit-count bookkeeping is observational only). -/
def get (cfg : CacheConfig) (now : Rat) (query : String)
    (entries : List CacheEntry) : Option CacheEntry :=
  if entries.isEmpty then none
  else (findBestMatch cfg now (jsTrim (jsToLowerCase query)) entries).1

/-- The eviction comparator of `SemanticCache.set`: ascending hits, ties
by ascending timestamp. -/
def evictionLE (a b : CacheEntry) : Bool :=
  if a.hits ≠ b.hits then a.hits < b.hits
  else a.timestamp ≤ b.timestamp

/-- `SemanticCache.set` for one principal: drop expired entries, evict
the least-used (then oldest) entry when at capacity, append the new
entry with `hits = 0`. -/
def set (cfg : CacheConfig) (now : Rat) (query : String) (context : String)
    (entries : List CacheEntry) : List CacheEntry :=
  let validEntries := entries.filter (fun e => now - e.timestamp ≤ cfg.ttlMs)
  let validEntries :=
    if cfg.maxSize ≤ validEntries.length then
      (validEntries.mergeSort evictionLE).drop 1
    else validEntries
  validEntries ++
    [{ query := query, queryLower := jsTrim (jsToLowerCase query),
       context := context, timestamp := now, hits := 0 }]

end SemanticCache

/-! ## Extraction validation (`validateExtractionResult`)

The raw LLM output is the result of `JSON.parse`, modelled by a JSON value
type (JSON has no `NaN`/`Infinity` literals, so numbers are rationals).
In JavaScript both objects and arrays satisfy `typeof x === "object"`;
property access on a non-object (or a missing property) yields
`undefined`, modelled by `none`. -/

/-- A parsed JSON value. -/
inductive Json
  | null
  | bool (b : Bool)
  | num (q : Rat)
  | str (s : String)
  | arr (elements : List Json)
  | obj (fields : List (String × Json))

namespace Json

/-- JS property read `value[key]`: a field of an object, `undefined`
otherwise (arrays have no string-named own properties of interest). -/
def getField : Json → String → Option Json
  | obj fields, key => (fields.find? (fun f => f.1 == key)).map (fun f => f.2)
  | _, _ => none

/-- `typeof x === "object" && x` (null is excluded by truthiness;
arrays pass the `typeof` test). -/
def isObjectLike : Json → Bool
  | obj _ => true
  | arr _ => true
  | _ => false

end Json

/-- `predicate.trim().toUpperCase().replace(/\s+/g, "_")`: the whitespace
collapsing step, replacing each maximal whitespace run by one `_`. -/
def replaceWsRuns (s : String) : String :=
  String.mk (replaceWsRunsAux s.data false)
where
  /-- Walk the characters; `inRun` records whether the previous character
  was part of a whitespace run already replaced. -/
  replaceWsRunsAux : List Char → Bool → List Char
    | [], _ => []
    | c :: cs, inRun =>
      if c.isWhitespace then
        if inRun then replaceWsRunsAux cs true
        else '_' :: replaceWsRunsAux cs true
      else c :: replaceWsRunsAux cs false

/-- The full predicate normalization
`predicate.trim().toUpperCase().replace(/\s+/g, "_")`. -/
def normalizePredicate (s : String) : String :=
  replaceWsRuns (jsToUpperCase (jsTrim s))

/-- The per-element validation of the `for (const op of result.operations)`
loop of `validateExtractionResult`: `none` means the element is silently
dropped (`continue`). -/
def validateOperation (j : Json) : Option Operation :=
  if !j.isObjectLike then none
  else
    match j.getField "op" with
    | some (Json.str opStr) =>
      if !(["INSERT", "UPDATE", "DELETE"].contains opStr) then none
      else
        let op : OpType :=
          if opStr = "INSERT" then OpType.INSERT
          else if opStr = "UPDATE" then OpType.UPDATE
          else OpType.DELETE
        match j.getField "subject" with
        | some (Json.str subject) =>
          if jsTrim subject = "" then none
          else
            match j.getField "predicate" with
            | some (Json.str predicate) =>
              if jsTrim predicate = "" then none
              else
                match j.getField "object" with
                | some (Json.str object) =>
                  if jsTrim object = "" then none
                  else
                    some
                      { op := op
                        subject := jsTrim subject
                        predicate := normalizePredicate predicate
                        object := jsTrim object
                        reason :=
                          match j.getField "reason" with
                          | some (Json.str r) => some r
                          | _ => none
                        confidence :=
                          match j.getField "confidence" with
                          | some (Json.num c) => some (max 0 (min 1 c))
                          | _ => some (8/10)
                        importance :=
                          match j.getField "importance" with
                          | some (Json.num i) => some (max 1 (min 10 i))
                          | _ => some 5
                        sentiment :=
                          match j.getField "sentiment" with
                          | some (Json.str "positive") => some Sentiment.positive
                          | some (Json.str "negative") => some Sentiment.negative
                          | some (Json.str "neutral") => some Sentiment.neutral
                          | _ => none }
                | _ => none
            | _ => none
        | _ => none
    | _ => none

/-- `validateExtractionResult(raw)` from
`src/extraction/ConflictResolver.ts`. -/
def validateExtractionResult (raw : Json) : ExtractionResult :=
  if !raw.isObjectLike then
    { operations := [], reasoning := some "Invalid extraction result" }
  else
    match raw.getField "operations" with
    | some (Json.arr ops) =>
      { operations := ops.filterMap validateOperation
        reasoning :=
          match raw.getField "reasoning" with
          | some (Json.str r) => some r
          | _ => none }
    | _ => { operations := [], reasoning := some "No operations found" }

/-! ## Storage adapters and the Tiered Store (`TieredAdapter`)

A storage backend (`BaseAdapter`) is modelled as a record of state-passing
operations; a rejected promise / thrown exception is `Except.error ()`.
`Date.now()` inside an adapter becomes the explicit `now` argument. -/

/-- The argument of `upsertFact`:
`Omit<MemoryFact, "id" | "createdAt" | "updatedAt">` (the fields the core
actually passes). -/
structure FactInput where
  subject : String
  predicate : String
  object : String
  confidence : Rat
  importance : Rat
  source : String
  invalidatedAt : Option Rat
  accessCount : Option Nat := none
  sentiment : Option Sentiment := none
  memoryStage : Option MemoryStage := none
deriving DecidableEq, Repr

/-- Forget a stored fact's identity and timestamps (the `TieredAdapter`
passes the full cold-saved fact where a `FactInput` is expected; adapters
ignore the extra fields). -/
def Fact.toInput (f : Fact) : FactInput where
  subject := f.subject
  predicate := f.predicate
  object := f.object
  confidence := f.confidence
  importance := f.importance
  source := f.source
  invalidatedAt := f.invalidatedAt
  accessCount := f.accessCount
  sentiment := f.sentiment
  memoryStage := f.memoryStage

/-- The argument of `updateFact`: `Partial<MemoryFact>` restricted to the
fields the core updates (`none` = field absent from the partial). -/
structure FactUpdates where
  object : Option String := none
  confidence : Option Rat := none
  memoryStage : Option (Option MemoryStage) := none
  invalidatedAt : Option (Option Rat) := none
  accessCount : Option Nat := none
deriving DecidableEq, Repr

/-- An abstract fact-storage backend (`BaseAdapter`), state-passing over a
backend state `σ`.  `getFactsValid` is `getFacts(userId, {validOnly: true})`
(the only read the tiered write path performs). -/
structure Adapter (σ : Type) where
  getFactsValid : σ → String → Except Unit (List Fact)
  upsertFact : σ → Rat → String → FactInput → Except Unit (Fact × σ)
  updateFact : σ → Rat → String → String → FactUpdates → Except Unit (Fact × σ)
  deleteFact : σ → Rat → String → String → Option String → Except Unit σ
  hardDeleteFact : σ → String → String → Except Unit σ

/-- Tiered-store configuration (the fields the fact write path reads). -/
structure TieredConfig where
  hotFactLimit : Nat
  autoDemote : Bool
deriving DecidableEq, Repr

namespace TieredAdapter

/-- The `hotFacts.sort((a, b) => a.updatedAt.getTime() - b.updatedAt.getTime())`
step of `demoteOldFacts`: JS `Array.prototype.sort` is a stable ascending
sort, modelled by Mathlib's stable `insertionSort`. -/
def sortByUpdatedAtAsc (facts : List Fact) : List Fact :=
  List.insertionSort (fun a b => a.updatedAt ≤ b.updatedAt) facts

/-- `TieredAdapter.demoteOldFacts`: if the hot store holds more than
`hotFactLimit` valid facts, hard-delete the oldest-by-`updatedAt` surplus
from the hot store (each `hardDeleteFact` failure swallowed by
`.catch(() => {})`). -/
def demoteOldFacts {σh : Type} (hot : Adapter σh) (hotFactLimit : Nat)
    (sh : σh) (userId : String) : Except Unit σh :=
  match hot.getFactsValid sh userId with
  | Except.error e => Except.error e
  | Except.ok hotFacts =>
    if hotFactLimit < hotFacts.length then
      let sorted := sortByUpdatedAtAsc hotFacts
      let toRemove := sorted.take (hotFacts.length - hotFactLimit)
      Except.ok (toRemove.foldl
        (fun s fact =>
          match hot.hardDeleteFact s userId fact.id with
          | Except.ok s' => s'
          | Except.error _ => s)
        sh)
    else
      Except.ok sh

/-- `TieredAdapter.upsertFact`: cold write first, then the hot write
(which the source does **not** wrap in `try`/`catch`), then demotion. -/
def upsertFact {σh σc : Type} (hot : Adapter σh) (cold : Adapter σc)
    (cfg : TieredConfig) (now : Rat) (userId : String) (fact : FactInput)
    (s : σh × σc) : Except Unit (Fact × σh × σc) :=
  match cold.upsertFact s.2 now userId fact with
  | Except.error e => Except.error e
  | Except.ok (saved, sc) =>
    match hot.upsertFact s.1 now userId saved.toInput with
    | Except.error e => Except.error e
    | Except.ok (_, sh) =>
      if cfg.autoDemote then
        match demoteOldFacts hot cfg.hotFactLimit sh userId with
        | Except.error e => Except.error e
        | Except.ok sh' => Except.ok (saved, (sh', sc))
      else
        Except.ok (saved, (sh, sc))

/-- `TieredAdapter.updateFact`: cold update first (fatal on failure), hot
update wrapped in `try`/`catch` (failure swallowed). -/
def updateFact {σh σc : Type} (hot : Adapter σh) (cold : Adapter σc)
    (now : Rat) (userId : String) (factId : String) (updates : FactUpdates)
    (s : σh × σc) : Except Unit (Fact × σh × σc) :=
  match cold.updateFact s.2 now userId factId updates with
  | Except.error e => Except.error e
  | Except.ok (updated, sc) =>
    let sh :=
      match hot.updateFact s.1 now userId factId updates with
      | Except.ok (_, sh') => sh'
      | Except.error _ => s.1
    Except.ok (updated, (sh, sc))

/-- `TieredAdapter.deleteFact`: `Promise.all` of the cold delete and the
hot delete; the hot rejection is swallowed by `.catch(() => {})`, a cold
rejection rejects the whole call. -/
def deleteFact {σh σc : Type} (hot : Adapter σh) (cold : Adapter σc)
    (now : Rat) (userId : String) (factId : String) (reason : Option String)
    (s : σh × σc) : Except Unit (σh × σc) :=
  let sh :=
    match hot.deleteFact s.1 now userId factId reason with
    | Except.ok s' => s'
    | Except.error _ => s.1
  match cold.deleteFact s.2 now userId factId reason with
  | Except.ok sc => Except.ok (sh, sc)
  | Except.error e => Except.error e

end TieredAdapter

/-! ## The in-memory backend (`InMemoryAdapter`) -/

/-- State of an `InMemoryAdapter`: per-principal fact lists (JS `Map`
preserves insertion order) and a counter standing in for `uuidv4()`. -/
structure InMemState where
  users : List (String × List Fact) := []
  nextId : Nat := 0
deriving DecidableEq, Repr

namespace InMemoryAdapter

/-- The facts stored for one principal (`getUserData(userId).facts`). -/
def userFacts (s : InMemState) (userId : String) : List Fact :=
  ((s.users.find? (fun u => u.1 == userId)).map (fun u => u.2)).getD []

/-- Replace (or create) one principal's fact list. -/
def setUserFacts (s : InMemState) (userId : String) (facts : List Fact) :
    InMemState :=
  if (s.users.find? (fun u => u.1 == userId)).isSome then
    { s with
      users := s.users.map (fun u => if u.1 == userId then (u.1, facts) else u) }
  else
    { s with users := s.users ++ [(userId, facts)] }

/-- `InMemoryAdapter.getFacts(userId, { validOnly: true })`. -/
def getFactsValid (s : InMemState) (userId : String) :
    Except Unit (List Fact) :=
  Except.ok ((userFacts s userId).filter (fun f => f.invalidatedAt == none))

/-- `InMemoryAdapter.upsertFact`: update the first valid fact with the
same (subject, predicate) in place, otherwise append a fresh fact with a
new id and `createdAt = updatedAt = now`. -/
def upsertFact (s : InMemState) (now : Rat) (userId : String)
    (input : FactInput) : Except Unit (Fact × InMemState) :=
  let facts := userFacts s userId
  match facts.find? (fun f =>
      f.subject == input.subject && f.predicate == input.predicate &&
      f.invalidatedAt == none) with
  | some existing =>
    let updated : Fact :=
      { existing with
        subject := input.subject
        predicate := input.predicate
        object := input.object
        confidence := input.confidence
        importance := input.importance
        source := input.source
        invalidatedAt := input.invalidatedAt
        accessCount := input.accessCount
        sentiment := input.sentiment
        memoryStage := input.memoryStage
        updatedAt := now }
    Except.ok (updated,
      setUserFacts s userId
        (facts.map (fun f => if f.id == existing.id then updated else f)))
  | none =>
    let newFact : Fact :=
      { id := "mem-" ++ toString s.nextId
        subject := input.subject
        predicate := input.predicate
        object := input.object
        confidence := input.confidence
        importance := input.importance
        source := input.source
        createdAt := now
        updatedAt := now
        invalidatedAt := input.invalidatedAt
        accessCount := input.accessCount
        sentiment := input.sentiment
        memoryStage := input.memoryStage }
    Except.ok (newFact,
      { setUserFacts s userId (facts ++ [newFact]) with nextId := s.nextId + 1 })

/-- Apply a `Partial<MemoryFact>` spread `{...fact, ...updates}`. -/
def applyUpdates (fact : Fact) (updates : FactUpdates) : Fact :=
  { fact with
    object := updates.object.getD fact.object
    confidence := updates.confidence.getD fact.confidence
    memoryStage := updates.memoryStage.getD fact.memoryStage
    invalidatedAt := updates.invalidatedAt.getD fact.invalidatedAt
    accessCount := updates.accessCount.or fact.accessCount }

/-- `InMemoryAdapter.updateFact`: throws (`Except.error`) when the fact id
is unknown, otherwise merges the partial update and stamps `updatedAt`. -/
def updateFact (s : InMemState) (now : Rat) (userId : String)
    (factId : String) (updates : FactUpdates) :
    Except Unit (Fact × InMemState) :=
  let facts := userFacts s userId
  match facts.find? (fun f => f.id == factId) with
  | none => Except.error ()
  | some fact =>
    let updated := { applyUpdates fact updates with id := fact.id, updatedAt := now }
    Except.ok (updated,
      setUserFacts s userId
        (facts.map (fun f => if f.id == factId then updated else f)))

/-- `InMemoryAdapter.deleteFact`: soft delete (set `invalidatedAt`) when
the fact exists; silently succeed otherwise. -/
def deleteFact (s : InMemState) (now : Rat) (userId : String)
    (factId : String) (_reason : Option String) : Except Unit InMemState :=
  let facts := userFacts s userId
  if (facts.find? (fun f => f.id == factId)).isSome then
    Except.ok (setUserFacts s userId
      (facts.map (fun f =>
        if f.id == factId then { f with invalidatedAt := some now } else f)))
  else
    Except.ok s

/-- `InMemoryAdapter.hardDeleteFact`: remove the fact entirely. -/
def hardDeleteFact (s : InMemState) (userId : String) (factId : String) :
    Except Unit InMemState :=
  Except.ok (setUserFacts s userId
    ((userFacts s userId).filter (fun f => !(f.id == factId))))

end InMemoryAdapter

/-- The `InMemoryAdapter` as an abstract `Adapter`. -/
def inMemoryAdapter : Adapter InMemState where
  getFactsValid := InMemoryAdapter.getFactsValid
  upsertFact := InMemoryAdapter.upsertFact
  updateFact := InMemoryAdapter.updateFact
  deleteFact := InMemoryAdapter.deleteFact
  hardDeleteFact := InMemoryAdapter.hardDeleteFact

/-- A hot backend that is down: every operation rejects (used to probe the
tiered store's failure semantics). -/
def failingAdapter : Adapter Unit where
  getFactsValid _ _ := Except.error ()
  upsertFact _ _ _ _ := Except.error ()
  updateFact _ _ _ _ _ := Except.error ()
  deleteFact _ _ _ _ _ := Except.error ()
  hardDeleteFact _ _ _ := Except.error ()

/-! ## Concrete scenario data -/

/-- An ephemeral-predicate fact of critical importance: importance 10,
predicate `WEARING`, created at time 0. -/
def wearingFact : Fact where
  id := "fact-wearing"
  subject := "User"
  predicate := "WEARING"
  object := "Blue shirt"
  confidence := 9/10
  importance := 10
  source := "session-1"
  createdAt := 0
  updatedAt := 0
  invalidatedAt := none

/-- A regular-class fact (predicate `LIKES` is neither permanent nor
ephemeral). -/
def likesFact : Fact where
  id := "fact-likes"
  subject := "User"
  predicate := "LIKES"
  object := "Coffee"
  confidence := 9/10
  importance := 5
  source := "session-1"
  createdAt := 0
  updatedAt := 0
  invalidatedAt := none

/-- The existing valid fact (User, LOCATION, "NYC") of Scenario A. -/
def locationFact : Fact where
  id := "fact-location"
  subject := "User"
  predicate := "LOCATION"
  object := "NYC"
  confidence := 9/10
  importance := 5
  source := "session-1"
  createdAt := 0
  updatedAt := 0
  invalidatedAt := none

/-- The incoming INSERT (User, LOCATION, "San Francisco") of Scenario A. -/
def sfInsertOp : Operation where
  op := OpType.INSERT
  subject := "User"
  predicate := "LOCATION"
  object := "San Francisco"
  confidence := some (9/10)
  importance := some 5

/-- An INSERT whose object equals `likesFact`'s object exactly. -/
def coffeeInsertOp : Operation where
  op := OpType.INSERT
  subject := "User"
  predicate := "LIKES"
  object := "Coffee"
  confidence := some (9/10)

/-- An existing valid fact on the multi-valued predicate `HAS_HOBBY`. -/
def hobbyFact : Fact where
  id := "fact-hobby"
  subject := "User"
  predicate := "HAS_HOBBY"
  object := "chess"
  confidence := 9/10
  importance := 5
  source := "session-1"
  createdAt := 0
  updatedAt := 0
  invalidatedAt := none

/-- A conflicting INSERT on the multi-valued predicate `HAS_HOBBY`. -/
def paintingInsertOp : Operation where
  op := OpType.INSERT
  subject := "User"
  predicate := "HAS_HOBBY"
  object := "painting"
  confidence := some (9/10)

/-- A 25-hour-old fact with 6 accesses (Scenario E, at `now` =
90000000 ms). -/
def stageFact : Fact where
  id := "fact-stage"
  subject := "User"
  predicate := "LIKES"
  object := "Coffee"
  confidence := 9/10
  importance := 5
  source := "session-1"
  createdAt := 0
  updatedAt := 0
  invalidatedAt := none
  accessCount := some 6

/-- The Scenario D cache configuration: `similarityThreshold = 0.6`. -/
def scenarioCacheConfig : CacheConfig where
  maxSize := 100
  ttlMs := 300000
  similarityThreshold := 3/5

/-- A fresh fact input (User, NAME, "John") for the tiered-store probes. -/
def nameInput : FactInput where
  subject := "User"
  predicate := "NAME"
  object := "John"
  confidence := 9/10
  importance := 5
  source := "session-1"
  invalidatedAt := none

/-- The fact the in-memory cold store creates from `nameInput` at time 1. -/
def nameSaved : Fact where
  id := "mem-0"
  subject := "User"
  predicate := "NAME"
  object := "John"
  confidence := 9/10
  importance := 5
  source := "session-1"
  createdAt := 1
  updatedAt := 1
  invalidatedAt := none

/-- The in-memory store after saving `nameSaved` for `user1`. -/
def nameState : InMemState where
  users := [("user1", [nameSaved])]
  nextId := 1

/-- A partial update changing the object to "Johnny". -/
def johnnyUpdates : FactUpdates := { object := some "Johnny" }

/-- The result of applying `johnnyUpdates` to `nameSaved` at time 2. -/
def nameUpdated : Fact := { nameSaved with object := "Johnny", updatedAt := 2 }

/-- The in-memory store after the "Johnny" update. -/
def nameStateUpdated : InMemState where
  users := [("user1", [nameUpdated])]
  nextId := 1

/-- Scenario C tiered configuration: `hotFactLimit = 5`, demotion on. -/
def tieredScenarioConfig : TieredConfig where
  hotFactLimit := 5
  autoDemote := true

/-- The i-th fact input of Scenario C. -/
def scenarioFactInput (i : Nat) : FactInput where
  subject := "User"
  predicate := "FACT_" ++ toString i
  object := "Value " ++ toString i
  confidence := 9/10
  importance := 5
  source := "session-1"
  invalidatedAt := none

/-- Scenario C: insert six distinct facts sequentially (at times 1..6)
through the tiered store over two empty in-memory backends. -/
def tieredScenarioRun : Except Unit (InMemState × InMemState) :=
  ([1, 2, 3, 4, 5, 6] : List Nat).foldlM
    (fun s i =>
      (TieredAdapter.upsertFact inMemoryAdapter inMemoryAdapter
          tieredScenarioConfig (Nat.cast i) "user1" (scenarioFactInput i) s).map
        (fun r => r.2))
    (⟨[], 0⟩, ⟨[], 0⟩)

/-- The fact created by the first Scenario C insert. -/
def scenarioFact1 : Fact where
  id := "mem-0"
  subject := "User"
  predicate := "FACT_1"
  object := "Value 1"
  confidence := 9/10
  importance := 5
  source := "session-1"
  createdAt := 1
  updatedAt := 1
  invalidatedAt := none

/-- Either in-memory backend after the first Scenario C insert. -/
def scenarioState1 : InMemState where
  users := [("user1", [scenarioFact1])]
  nextId := 1

/-- A parsed LLM reply without an `operations` array. -/
def noOpsRaw : Json := Json.obj [("reasoning", Json.str "nothing")]

/-- A raw LLM operation needing every normalization: padded subject and
object, a predicate with inner whitespace, confidence 2 (above 1) and
importance 0 (below 1). -/
def rawOpJson : Json :=
  Json.obj [("op", Json.str "INSERT"), ("subject", Json.str "  User "),
    ("predicate", Json.str " has  name "), ("object", Json.str " John "),
    ("confidence", Json.num 2), ("importance", Json.num 0)]

/-- A parsed LLM reply with one valid (if messy) operation and one
malformed element. -/
def operationsRaw : Json :=
  Json.obj [("operations", Json.arr [rawOpJson, Json.str "junk"])]

/-- What validation turns `rawOpJson` into: trimmed fields, normalized
predicate `HAS_NAME`, confidence clamped to 1, importance clamped to 1. -/
def sanitizedOp : Operation where
  op := OpType.INSERT
  subject := "User"
  predicate := "HAS_NAME"
  object := "John"
  reason := none
  confidence := some 1
  importance := some 1
  sentiment := none

/-! ## Claims -/

/-- Helper: a string with a nonempty character list is nonempty. -/
theorem ne_empty_of_data_ne_nil (s : String) (h : s.data ≠ []) : s ≠ "" := by
  intro heq
  rw [heq] at h
  exact h rfl

/-- Helper: collapsing whitespace runs preserves nonemptiness. -/
theorem replaceWsRuns_ne_empty (s : String) (h : s.data ≠ []) :
    replaceWsRuns s ≠ "" := by
  apply ne_empty_of_data_ne_nil
  show replaceWsRuns.replaceWsRunsAux s.data false ≠ []
  cases hd : s.data with
  | nil => exact absurd hd h
  | cons c cs =>
    by_cases hc : c.isWhitespace <;>
      simp [replaceWsRuns.replaceWsRunsAux, hc]

/-- Helper: predicate normalization preserves nonemptiness of the trimmed
input. -/
theorem normalizePredicate_ne_empty (p : String) (h : ¬ jsTrim p = "") :
    normalizePredicate p ≠ "" := by
  apply replaceWsRuns_ne_empty
  show ((jsTrim p).data.map Char.toUpper) ≠ []
  intro hmap
  apply h
  apply String.ext
  simpa using hmap

set_option maxHeartbeats 2000000 in
/-- Helper: every operation surviving `validateOperation` has a valid op
kind, nonempty trimmed subject/object, a nonempty normalized predicate,
confidence in [0, 1] and importance in [1, 10]. -/
theorem validateOperation_props (j : Json) (o : Operation)
    (h : validateOperation j = some o) :
    (o.op = OpType.INSERT ∨ o.op = OpType.UPDATE ∨ o.op = OpType.DELETE) ∧
    (∃ s0, o.subject = jsTrim s0 ∧ o.subject ≠ "") ∧
    (∃ b0, o.object = jsTrim b0 ∧ o.object ≠ "") ∧
    (∃ p0, o.predicate = normalizePredicate p0 ∧ o.predicate ≠ "") ∧
    (∃ c, o.confidence = some c ∧ 0 ≤ c ∧ c ≤ 1) ∧
    (∃ i, o.importance = some i ∧ 1 ≤ i ∧ i ≤ 10) := by
  simp only [validateOperation] at h
  repeat' split at h
  all_goals first
    | exact Option.noConfusion h
    | (injection h with h
       subst h
       refine ⟨?_, ⟨_, rfl, by assumption⟩, ⟨_, rfl, by assumption⟩,
         ⟨_, rfl, normalizePredicate_ne_empty _ (by assumption)⟩,
         ⟨_, rfl, ?_, ?_⟩, ⟨_, rfl, ?_, ?_⟩⟩ <;>
       first
         | exact Or.inl rfl
         | exact Or.inr (Or.inl rfl)
         | exact Or.inr (Or.inr rfl)
         | exact le_max_left _ _
         | exact max_le (by norm_num) (min_le_left _ _)
         | norm_num)

/-- Claim C1, counterexample: `shouldPrune` returns `true` for a fact of
importance 10 (the ephemeral `WEARING` fact, 48 hours old under the
default 24-hour ephemeral TTL), so importance ≥ 9 does **not** exclude a
fact from decay pruning. -/
theorem shouldPrune_prunes_importance10_fact :
    (9 : Rat) ≤ wearingFact.importance ∧
      DecayManager.shouldPrune defaultDecayConfig 172800000 wearingFact = true := by
  constructor
  · decide
  · have hup : jsToUpperCase "WEARING" = "WEARING" := by decide
    have hperm : defaultDecayConfig.permanentPredicates.contains "WEARING" = false := by
      decide
    have heph : defaultDecayConfig.ephemeralPredicates.contains "WEARING" = true := by
      decide
    simp only [DecayManager.shouldPrune, DecayManager.calculateDecayWeight,
      DecayManager.calculateExpiryDate, wearingFact, hup, hperm, heph]
    norm_num [defaultDecayConfig]

/-- Claim C1, amended: `shouldPrune` never consults a fact's importance:
its result is invariant under arbitrary changes of the `importance` field
(for every configuration, every current time, and every fact).
Consequently importance ≥ 9 facts are prunable exactly like identical
facts of lower importance. -/
theorem shouldPrune_ignores_importance (cfg : DecayConfig) (now : Rat)
    (fact : Fact) (i : Rat) :
    DecayManager.shouldPrune cfg now { fact with importance := i } =
      DecayManager.shouldPrune cfg now fact := rfl

/-- Claim C6: for a regular-class fact (predicate neither permanent nor
ephemeral) with reinforcement fixed below the threshold and positive
configured TTLs, the decay weight is non-increasing in the current time. -/
theorem calculateDecayWeight_antitone (cfg : DecayConfig) (fact : Fact)
    (t1 t2 : Rat)
    (hperm : cfg.permanentPredicates.contains (jsToUpperCase fact.predicate) = false)
    (heph : cfg.ephemeralPredicates.contains (jsToUpperCase fact.predicate) = false)
    (hreinf : fact.reinforcementCount.getD 0 < cfg.reinforcementThreshold)
    (hlow : 0 < cfg.lowWeightTtlDays)
    (hdef : 0 < cfg.defaultTtlDays.getD 90)
    (h12 : t1 ≤ t2) :
    DecayManager.calculateDecayWeight cfg t2 fact ≤
      DecayManager.calculateDecayWeight cfg t1 fact := by
  by_cases hE : cfg.enabled
  · simp only [DecayManager.calculateDecayWeight, hE, Bool.not_true,
      Bool.false_eq_true, if_false, hperm, heph, Nat.not_le.mpr hreinf]
    rcases hD : (if fact.confidence < 1/2 then some cfg.lowWeightTtlDays
        else cfg.defaultTtlDays) with _ | d
    · simp [hD]
    · have hdpos : 0 < d := by
        by_cases hc : fact.confidence < 1/2
        · rw [if_pos hc] at hD
          cases hD
          exact hlow
        · rw [if_neg hc] at hD
          rw [hD] at hdef
          simpa using hdef
      simp only [hD]
      gcongr
  · simp [DecayManager.calculateDecayWeight, hE]

/-- Claim C6, witness: the regular `LIKES` fact under the default
configuration, compared at times 0 and one day later. -/
theorem calculateDecayWeight_antitone_witness :
    defaultDecayConfig.permanentPredicates.contains
        (jsToUpperCase likesFact.predicate) = false ∧
      defaultDecayConfig.ephemeralPredicates.contains
        (jsToUpperCase likesFact.predicate) = false ∧
      likesFact.reinforcementCount.getD 0 <
        defaultDecayConfig.reinforcementThreshold ∧
      0 < defaultDecayConfig.lowWeightTtlDays ∧
      0 < defaultDecayConfig.defaultTtlDays.getD 90 ∧
      (0 : Rat) ≤ 86400000 ∧
      DecayManager.calculateDecayWeight defaultDecayConfig 86400000 likesFact ≤
        DecayManager.calculateDecayWeight defaultDecayConfig 0 likesFact :=
  ⟨by decide, by decide, by decide, by decide, by decide, by decide,
    calculateDecayWeight_antitone defaultDecayConfig likesFact 0 86400000
      (by decide) (by decide) (by decide) (by decide) (by decide) (by decide)⟩

/-- Claim C2: under the `latest` strategy, an INSERT/UPDATE hitting an
existing valid fact with a different object resolves to exactly two
operations, in order: the implicit DELETE of the existing fact (whose
reason embeds the new object value) followed by the incoming operation. -/
theorem resolve_latest_conflict_delete_then_insert (facts : List Fact)
    (op : Operation) (f : Fact)
    (hop : op.op ≠ OpType.DELETE)
    (hfind : facts.find? (fun g =>
      g.subject == op.subject && g.predicate == op.predicate) = some f)
    (hobj : f.object ≠ op.object) :
    ConflictResolver.resolve ConflictStrategy.latest facts [op] =
      ⟨[ConflictResolver.replaceDelete f op, op],
        [⟨f, op, Resolution.replace⟩]⟩ ∧
    (ConflictResolver.replaceDelete f op).reason =
      some ("Replaced by new value: " ++ op.object) := by
  constructor
  · simp [ConflictResolver.resolve, ConflictResolver.resolveStep, hop, hfind,
      hobj]
  · rfl

/-- Claim C2, witness: Scenario A — existing (User, LOCATION, "NYC"),
incoming INSERT (User, LOCATION, "San Francisco") resolves to the DELETE
of NYC followed by the San Francisco INSERT. -/
theorem resolve_latest_conflict_delete_then_insert_witness :
    sfInsertOp.op ≠ OpType.DELETE ∧
    [locationFact].find? (fun g => g.subject == sfInsertOp.subject &&
      g.predicate == sfInsertOp.predicate) = some locationFact ∧
    locationFact.object ≠ sfInsertOp.object ∧
    ConflictResolver.resolve ConflictStrategy.latest [locationFact] [sfInsertOp] =
      ⟨[ConflictResolver.replaceDelete locationFact sfInsertOp, sfInsertOp],
        [⟨locationFact, sfInsertOp, Resolution.replace⟩]⟩ :=
  ⟨by decide, by rfl, by decide,
    (resolve_latest_conflict_delete_then_insert [locationFact] sfInsertOp
      locationFact (by decide) (by rfl) (by decide)).1⟩

/-- Claim C7: for every strategy, an INSERT/UPDATE whose object exactly
equals the matched existing fact's object is dropped entirely — removing
it from the batch leaves the resolved result unchanged, so it contributes
neither a DELETE nor an INSERT. -/
theorem resolve_same_object_is_noop (strategy : ConflictStrategy)
    (facts : List Fact) (pre post : List Operation) (op : Operation) (f : Fact)
    (hop : op.op ≠ OpType.DELETE)
    (hfind : facts.find? (fun g =>
      g.subject == op.subject && g.predicate == op.predicate) = some f)
    (hobj : f.object = op.object) :
    ConflictResolver.resolve strategy facts (pre ++ op :: post) =
      ConflictResolver.resolve strategy facts (pre ++ post) := by
  have hstep : ∀ acc, ConflictResolver.resolveStep strategy facts acc op = acc := by
    intro acc
    simp [ConflictResolver.resolveStep, hop, hfind, hobj]
  simp only [ConflictResolver.resolve, List.foldl_append, List.foldl_cons, hstep]

/-- Claim C7, witness: inserting (User, LIKES, "Coffee") over the
identical existing fact resolves like the empty batch. -/
theorem resolve_same_object_is_noop_witness :
    coffeeInsertOp.op ≠ OpType.DELETE ∧
    [likesFact].find? (fun g => g.subject == coffeeInsertOp.subject &&
      g.predicate == coffeeInsertOp.predicate) = some likesFact ∧
    likesFact.object = coffeeInsertOp.object ∧
    ConflictResolver.resolve ConflictStrategy.latest [likesFact] [coffeeInsertOp] =
      ConflictResolver.resolve ConflictStrategy.latest [likesFact] [] :=
  ⟨by decide, by rfl, by rfl,
    resolve_same_object_is_noop ConflictStrategy.latest [likesFact] [] []
      coffeeInsertOp likesFact (by decide) (by rfl) (by rfl)⟩

/-- Claim C10: resolution applies the configured strategy uniformly,
independent of predicate multiplicity: `keep_both` keeps the existing fact
(no DELETE) for any predicate — including single-valued ones like
`LOCATION` — and `latest` deletes the existing fact for any predicate —
including multi-valued ones like `HAS_HOBBY`; `isMultiValuePredicate` is
never consulted. -/
theorem resolve_independent_of_predicate_multiplicity :
    (∀ (facts : List Fact) (op : Operation) (f : Fact),
        op.op ≠ OpType.DELETE →
        facts.find? (fun g =>
          g.subject == op.subject && g.predicate == op.predicate) = some f →
        f.object ≠ op.object →
        ConflictResolver.resolve ConflictStrategy.keep_both facts [op] =
          ⟨[op], [⟨f, op, Resolution.keep_both⟩]⟩) ∧
    (∀ (facts : List Fact) (op : Operation) (f : Fact),
        op.op ≠ OpType.DELETE →
        facts.find? (fun g =>
          g.subject == op.subject && g.predicate == op.predicate) = some f →
        f.object ≠ op.object →
        ConflictResolver.resolve ConflictStrategy.latest facts [op] =
          ⟨[ConflictResolver.replaceDelete f op, op],
            [⟨f, op, Resolution.replace⟩]⟩) ∧
    ConflictResolver.isMultiValuePredicate "LOCATION" = false ∧
    ConflictResolver.isMultiValuePredicate "HAS_HOBBY" = true := by
  refine ⟨?_, ?_, by decide, by decide⟩
  · intro facts op f hop hfind hobj
    simp [ConflictResolver.resolve, ConflictResolver.resolveStep, hop, hfind,
      hobj]
  · intro facts op f hop hfind hobj
    simp [ConflictResolver.resolve, ConflictResolver.resolveStep, hop, hfind,
      hobj]

/-- Claim C10, witness: `keep_both` on the single-valued `LOCATION`
conflict emits only the INSERT (both facts stay valid), while `latest` on
the multi-valued `HAS_HOBBY` conflict still deletes the existing fact. -/
theorem resolve_independent_of_predicate_multiplicity_witness :
    ConflictResolver.resolve ConflictStrategy.keep_both [locationFact] [sfInsertOp] =
      ⟨[sfInsertOp], [⟨locationFact, sfInsertOp, Resolution.keep_both⟩]⟩ ∧
    ConflictResolver.resolve ConflictStrategy.latest [hobbyFact] [paintingInsertOp] =
      ⟨[ConflictResolver.replaceDelete hobbyFact paintingInsertOp, paintingInsertOp],
        [⟨hobbyFact, paintingInsertOp, Resolution.replace⟩]⟩ :=
  ⟨resolve_independent_of_predicate_multiplicity.1 [locationFact] sfInsertOp
      locationFact (by decide) (by rfl) (by decide),
    resolve_independent_of_predicate_multiplicity.2.1 [hobbyFact]
      paintingInsertOp hobbyFact (by decide) (by rfl) (by decide)⟩

/-- Claim C8: `determineStage` returns `long-term` iff age ≥ `workingHours`
and accesses ≥ `longTermAccessThreshold`; otherwise `working` iff age ≥
`shortTermHours` or accesses ≥ `workingAccessThreshold`; otherwise
`short-term`.  Additionally, Scenario E: a 25-hour-old fact with 6
accesses under the defaults (`workingHours = 24`,
`longTermAccessThreshold = 5`) is classified `long-term`. -/
theorem determineStage_characterization :
    (∀ (cfg : ConsolidationConfig) (now : Rat) (fact : Fact),
      (ConsolidationWorker.determineStage cfg now fact = MemoryStage.longTerm ↔
        (cfg.workingHours ≤ (now - fact.createdAt) / (1000 * 60 * 60) ∧
          cfg.longTermAccessThreshold ≤ (fact.accessCount.getD 0 : Rat))) ∧
      (ConsolidationWorker.determineStage cfg now fact = MemoryStage.working ↔
        (¬(cfg.workingHours ≤ (now - fact.createdAt) / (1000 * 60 * 60) ∧
            cfg.longTermAccessThreshold ≤ (fact.accessCount.getD 0 : Rat)) ∧
          (cfg.shortTermHours ≤ (now - fact.createdAt) / (1000 * 60 * 60) ∨
            cfg.workingAccessThreshold ≤ (fact.accessCount.getD 0 : Rat)))) ∧
      (ConsolidationWorker.determineStage cfg now fact = MemoryStage.shortTerm ↔
        (¬(cfg.workingHours ≤ (now - fact.createdAt) / (1000 * 60 * 60) ∧
            cfg.longTermAccessThreshold ≤ (fact.accessCount.getD 0 : Rat)) ∧
          ¬(cfg.shortTermHours ≤ (now - fact.createdAt) / (1000 * 60 * 60) ∨
            cfg.workingAccessThreshold ≤ (fact.accessCount.getD 0 : Rat))))) ∧
    ConsolidationWorker.determineStage defaultConsolidationConfig 90000000
      stageFact = MemoryStage.longTerm := by
  constructor
  · intro cfg now fact
    simp only [ConsolidationWorker.determineStage]
    split_ifs with h1 h2 <;> simp_all
  · norm_num [ConsolidationWorker.determineStage, defaultConsolidationConfig,
      stageFact]

/-- Helper: the Scenario D similarity: after lowercasing and trimming, the
stored query keeps its question mark, so the Jaccard similarity of
`"what is my name"` against `"what is my name?"` is 3/5, not 1. -/
theorem calculateSimilarity_name_queries :
    SemanticCache.calculateSimilarity "what is my name" "what is my name?" =
      3/5 := by
  have hAB : ("what is my name" = "what is my name?") = False := by decide
  have hA : (SemanticCache.splitTokens "what is my name").dedup =
      ["what", "is", "my", "name"] := by decide
  have hB : (SemanticCache.splitTokens "what is my name?").dedup =
      ["what", "is", "my", "name?"] := by decide
  have hI : (["what", "is", "my", "name"].filter
      (fun t => ["what", "is", "my", "name?"].contains t)).length = 3 := by
    decide
  simp only [SemanticCache.calculateSimilarity, hAB, if_false, hA, hB, hI]
  norm_num

/-- Helper: storing Scenario D's query in an empty cache yields exactly one
entry whose normalized query keeps the question mark. -/
theorem set_name_query :
    SemanticCache.set scenarioCacheConfig 0 "What is my name?" "ctx" [] =
      [⟨"What is my name?", "what is my name?", "ctx", 0, 0⟩] := by rfl

/-- Claim C4, counterexample: the two normalized queries' token sets are
**not** identical (`"name"` vs `"name?"`) and the similarity is not 1.0. -/
theorem cache_similarity_not_one :
    SemanticCache.calculateSimilarity "what is my name" "what is my name?" ≠ 1 ∧
    (SemanticCache.splitTokens "what is my name").dedup ≠
      (SemanticCache.splitTokens "what is my name?").dedup := by
  constructor
  · rw [calculateSimilarity_name_queries]
    norm_num
  · decide

/-- Claim C4, amended: the lookup is still a cache hit, but with Jaccard
similarity 3/5 = 0.6 — normalization (lowercase, trim) keeps the question
mark, the token sets differ in one token, and 0.6 is exactly at the
threshold, which the hit condition (`score >= threshold`) admits. -/
theorem cache_lookup_hits_at_threshold :
    SemanticCache.calculateSimilarity "what is my name" "what is my name?" =
      3/5 ∧
    scenarioCacheConfig.similarityThreshold ≤ (3/5 : Rat) ∧
    SemanticCache.get scenarioCacheConfig 0 "what is my name"
        (SemanticCache.set scenarioCacheConfig 0 "What is my name?" "ctx" []) =
      some ⟨"What is my name?", "what is my name?", "ctx", 0, 0⟩ := by
  refine ⟨calculateSimilarity_name_queries, by norm_num [scenarioCacheConfig], ?_⟩
  rw [set_name_query]
  have hq : jsTrim (jsToLowerCase "what is my name") = "what is my name" := by
    decide
  simp only [SemanticCache.get, SemanticCache.findBestMatch, List.isEmpty,
    List.foldl, hq, calculateSimilarity_name_queries]
  norm_num [scenarioCacheConfig]

/-- Claim C3, counterexample: `upsertFact` does **not** swallow a
hot-store failure — with a failing hot backend the tiered call rejects,
even though the cold write alone succeeds. -/
theorem tiered_upsert_hot_failure_not_swallowed :
    TieredAdapter.upsertFact failingAdapter inMemoryAdapter ⟨50, true⟩ 1
      "user1" nameInput ((), ⟨[], 0⟩) = Except.error () ∧
    inMemoryAdapter.upsertFact ⟨[], 0⟩ 1 "user1" nameInput =
      Except.ok (nameSaved, nameState) := ⟨rfl, rfl⟩

/-- Claim C3, amended: the cold store is written first and a cold failure
is fatal for all three writes; the hot failure is swallowed for
`updateFact` (the `try`/`catch`) and for `deleteFact` (the
`.catch(() => {})`), which still succeed with the cold result — but for
`upsertFact` a hot failure is not swallowed and the whole call fails. -/
theorem tiered_write_failure_semantics :
    (∀ (σh σc : Type) (hot : Adapter σh) (cold : Adapter σc)
        (cfg : TieredConfig) (now : Rat) (u : String) (f : FactInput)
        (s : σh × σc),
      cold.upsertFact s.2 now u f = Except.error () →
      TieredAdapter.upsertFact hot cold cfg now u f s = Except.error ()) ∧
    (∀ (σh σc : Type) (hot : Adapter σh) (cold : Adapter σc)
        (cfg : TieredConfig) (now : Rat) (u : String) (f : FactInput)
        (s : σh × σc) (saved : Fact) (sc' : σc),
      cold.upsertFact s.2 now u f = Except.ok (saved, sc') →
      hot.upsertFact s.1 now u saved.toInput = Except.error () →
      TieredAdapter.upsertFact hot cold cfg now u f s = Except.error ()) ∧
    (∀ (σh σc : Type) (hot : Adapter σh) (cold : Adapter σc) (now : Rat)
        (u fid : String) (upd : FactUpdates) (s : σh × σc) (updated : Fact)
        (sc' : σc),
      cold.updateFact s.2 now u fid upd = Except.ok (updated, sc') →
      ∃ sh', TieredAdapter.updateFact hot cold now u fid upd s =
        Except.ok (updated, (sh', sc'))) ∧
    (∀ (σh σc : Type) (hot : Adapter σh) (cold : Adapter σc) (now : Rat)
        (u fid : String) (upd : FactUpdates) (s : σh × σc),
      cold.updateFact s.2 now u fid upd = Except.error () →
      TieredAdapter.updateFact hot cold now u fid upd s = Except.error ()) ∧
    (∀ (σh σc : Type) (hot : Adapter σh) (cold : Adapter σc) (now : Rat)
        (u fid : String) (r : Option String) (s : σh × σc) (sc' : σc),
      cold.deleteFact s.2 now u fid r = Except.ok sc' →
      ∃ sh', TieredAdapter.deleteFact hot cold now u fid r s =
        Except.ok (sh', sc')) ∧
    (∀ (σh σc : Type) (hot : Adapter σh) (cold : Adapter σc) (now : Rat)
        (u fid : String) (r : Option String) (s : σh × σc),
      cold.deleteFact s.2 now u fid r = Except.error () →
      TieredAdapter.deleteFact hot cold now u fid r s = Except.error ()) := by
  refine ⟨?_, ?_, ?_, ?_, ?_, ?_⟩
  · intro σh σc hot cold cfg now u f s hcold
    simp [TieredAdapter.upsertFact, hcold]
  · intro σh σc hot cold cfg now u f s saved sc' hcold hhot
    simp [TieredAdapter.upsertFact, hcold, hhot]
  · intro σh σc hot cold now u fid upd s updated sc' hcold
    refine ⟨(match hot.updateFact s.1 now u fid upd with
      | Except.ok (_, sh') => sh'
      | Except.error _ => s.1), ?_⟩
    simp [TieredAdapter.updateFact, hcold]
  · intro σh σc hot cold now u fid upd s hcold
    simp [TieredAdapter.updateFact, hcold]
  · intro σh σc hot cold now u fid r s sc' hcold
    refine ⟨(match hot.deleteFact s.1 now u fid r with
      | Except.ok s' => s'
      | Except.error _ => s.1), ?_⟩
    simp [TieredAdapter.deleteFact, hcold]
  · intro σh σc hot cold now u fid r s hcold
    simp [TieredAdapter.deleteFact, hcold]

/-- Claim C3, witness: with the hot backend down and an in-memory cold
backend, the tiered upsert rejects while the tiered update still succeeds
with the cold result. -/
theorem tiered_write_failure_semantics_witness :
    inMemoryAdapter.upsertFact ⟨[], 0⟩ 1 "user1" nameInput =
      Except.ok (nameSaved, nameState) ∧
    failingAdapter.upsertFact () 1 "user1" nameSaved.toInput =
      Except.error () ∧
    TieredAdapter.upsertFact failingAdapter inMemoryAdapter ⟨50, true⟩ 1
      "user1" nameInput ((), ⟨[], 0⟩) = Except.error () ∧
    inMemoryAdapter.updateFact nameState 2 "user1" "mem-0" johnnyUpdates =
      Except.ok (nameUpdated, nameStateUpdated) ∧
    ∃ sh', TieredAdapter.updateFact failingAdapter inMemoryAdapter 2 "user1"
      "mem-0" johnnyUpdates ((), nameState) =
        Except.ok (nameUpdated, (sh', nameStateUpdated)) :=
  ⟨rfl, rfl,
    tiered_write_failure_semantics.2.1 Unit InMemState failingAdapter
      inMemoryAdapter ⟨50, true⟩ 1 "user1" nameInput ((), ⟨[], 0⟩) nameSaved
      nameState rfl rfl,
    rfl,
    tiered_write_failure_semantics.2.2.1 Unit InMemState failingAdapter
      inMemoryAdapter 2 "user1" "mem-0" johnnyUpdates ((), nameState)
      nameUpdated nameStateUpdated rfl⟩

/-- Claim C5: Scenario C — six sequential inserts with `hotFactLimit = 5`
leave the hot store with exactly the five newest-by-`updatedAt` facts (the
oldest, `mem-0`, was evicted) and the cold store with all six; moreover,
in general, a successful tiered upsert leaves the cold store exactly as
the cold `upsertFact` produced it — demotion never removes from cold. -/
theorem tiered_six_inserts_bound_hot_keep_cold :
    (tieredScenarioRun.toOption.map (fun s =>
        ((InMemoryAdapter.userFacts s.1 "user1").map (fun f => f.id),
          (InMemoryAdapter.userFacts s.2 "user1").length)) =
      some (["mem-1", "mem-2", "mem-3", "mem-4", "mem-5"], 6)) ∧
    (∀ (σh σc : Type) (hot : Adapter σh) (cold : Adapter σc)
        (cfg : TieredConfig) (now : Rat) (u : String) (f : FactInput)
        (s : σh × σc) (r : Fact) (sh' : σh) (sc' : σc),
      TieredAdapter.upsertFact hot cold cfg now u f s =
        Except.ok (r, (sh', sc')) →
      cold.upsertFact s.2 now u f = Except.ok (r, sc')) := by
  constructor
  · decide
  · intro σh σc hot cold cfg now u f s r sh' sc' h
    simp only [TieredAdapter.upsertFact] at h
    repeat' split at h
    all_goals simp_all

/-- Claim C5, witness: the first Scenario C insert — the tiered upsert
succeeds and the cold store holds exactly the cold `upsertFact` result. -/
theorem tiered_six_inserts_bound_hot_keep_cold_witness :
    TieredAdapter.upsertFact inMemoryAdapter inMemoryAdapter
      tieredScenarioConfig 1 "user1" (scenarioFactInput 1) (⟨[], 0⟩, ⟨[], 0⟩) =
      Except.ok (scenarioFact1, (scenarioState1, scenarioState1)) ∧
    inMemoryAdapter.upsertFact ⟨[], 0⟩ 1 "user1" (scenarioFactInput 1) =
      Except.ok (scenarioFact1, scenarioState1) :=
  ⟨rfl,
    tiered_six_inserts_bound_hot_keep_cold.2 InMemState InMemState
      inMemoryAdapter inMemoryAdapter tieredScenarioConfig 1 "user1"
      (scenarioFactInput 1) (⟨[], 0⟩, ⟨[], 0⟩) scenarioFact1 scenarioState1
      scenarioState1 rfl⟩

/-- Claim C9: extraction validation is total and sanitizing — a non-object
parse result or a missing/non-array `operations` field yields an empty
operations list (never an error), and every surviving operation has a
valid op kind, nonempty trimmed subject and object, a nonempty predicate
normalized by uppercasing and whitespace-to-underscore replacement,
confidence clamped to [0, 1] and importance clamped to [1, 10]; failing
elements are silently dropped. -/
theorem validateExtractionResult_sanitizes :
    ((validateExtractionResult Json.null).operations = [] ∧
      (∀ b, (validateExtractionResult (Json.bool b)).operations = []) ∧
      (∀ q, (validateExtractionResult (Json.num q)).operations = []) ∧
      (∀ t, (validateExtractionResult (Json.str t)).operations = [])) ∧
    (∀ raw : Json, (∀ l, raw.getField "operations" ≠ some (Json.arr l)) →
      (validateExtractionResult raw).operations = []) ∧
    (∀ (raw : Json) (o : Operation),
      o ∈ (validateExtractionResult raw).operations →
      (o.op = OpType.INSERT ∨ o.op = OpType.UPDATE ∨ o.op = OpType.DELETE) ∧
      (∃ s0, o.subject = jsTrim s0 ∧ o.subject ≠ "") ∧
      (∃ b0, o.object = jsTrim b0 ∧ o.object ≠ "") ∧
      (∃ p0, o.predicate = normalizePredicate p0 ∧ o.predicate ≠ "") ∧
      (∃ c, o.confidence = some c ∧ 0 ≤ c ∧ c ≤ 1) ∧
      (∃ i, o.importance = some i ∧ 1 ≤ i ∧ i ≤ 10)) := by
  refine ⟨⟨rfl, fun b => rfl, fun q => rfl, fun t => rfl⟩, ?_, ?_⟩
  · intro raw hne
    simp only [validateExtractionResult]
    split <;> rfl
  · intro raw o hm
    simp only [validateExtractionResult] at hm
    split at hm
    · simp at hm
    · rcases hf : raw.getField "operations" with _ | v
      · rw [hf] at hm
        simp at hm
      · rcases v with _ | b | q | t | l | fs
        · rw [hf] at hm; simp at hm
        · rw [hf] at hm; simp at hm
        · rw [hf] at hm; simp at hm
        · rw [hf] at hm; simp at hm
        · rw [hf] at hm
          simp at hm
          rcases hm with ⟨j, _, hv⟩
          exact validateOperation_props j o hv
        · rw [hf] at hm; simp at hm

/-- Claim C9, witness: a reply without an `operations` array yields no
operations, and the messy `rawOpJson` survives as the fully sanitized
`sanitizedOp` (its malformed `"junk"` sibling silently dropped), with all
sanitization properties holding for it. -/
theorem validateExtractionResult_sanitizes_witness :
    (validateExtractionResult noOpsRaw).operations = [] ∧
    sanitizedOp ∈ (validateExtractionResult operationsRaw).operations ∧
    ((sanitizedOp.op = OpType.INSERT ∨ sanitizedOp.op = OpType.UPDATE ∨
        sanitizedOp.op = OpType.DELETE) ∧
      (∃ s0, sanitizedOp.subject = jsTrim s0 ∧ sanitizedOp.subject ≠ "") ∧
      (∃ b0, sanitizedOp.object = jsTrim b0 ∧ sanitizedOp.object ≠ "") ∧
      (∃ p0, sanitizedOp.predicate = normalizePredicate p0 ∧
        sanitizedOp.predicate ≠ "") ∧
      (∃ c, sanitizedOp.confidence = some c ∧ 0 ≤ c ∧ c ≤ 1) ∧
      (∃ i, sanitizedOp.importance = some i ∧ 1 ≤ i ∧ i ≤ 10)) := by
  have hmem : sanitizedOp ∈ (validateExtractionResult operationsRaw).operations := by
    rw [show (validateExtractionResult operationsRaw).operations =
      [sanitizedOp] from rfl]
    exact List.mem_singleton.mpr rfl
  exact ⟨validateExtractionResult_sanitizes.2.1 noOpsRaw
      (fun l h => Option.noConfusion h),
    hmem,
    validateExtractionResult_sanitizes.2.2 operationsRaw sanitizedOp hmem⟩

end Cortex
